import Mathlib

/-!
Verification of the social-poster repository: a shallow embedding of the
shared data model, the four server route handlers, and the browser composer
page, with theorems settling the specification claims about them.

Conventions of the embedding:
* Optional request-body fields become `Option` values; JavaScript truthiness
  of a string (absent, null and the empty string are falsy) is `truthyStr`,
  of a boolean `truthyBool`.
* String operations whose core-library versions do not reduce in the kernel
  (trim, toLowerCase, startsWith) are embedded as the equivalent operations
  on the character list of the string.
* Each route handler is embedded up to the point where it would perform its
  outbound network call: the functions return either an early error response
  or the exact payload the handler would send.
-/

set_option maxRecDepth 10000

namespace SocialPoster

/-- JavaScript truthiness of an optional string value: `undefined`, `null`
and `""` are falsy, every other string is truthy. -/
def truthyStr : Option String → Bool
  | none => false
  | some s => !(s == "")

/-- JavaScript truthiness of an optional boolean value. -/
def truthyBool : Option Bool → Bool
  | none => false
  | some b => b

/-- ASCII whitespace recognised by the embedding of `String.prototype.trim`. -/
def wsChar (c : Char) : Bool := c == ' ' || c == '\t' || c == '\n' || c == '\r'

/-- Embedding of `content.trim()`: drop whitespace from both ends. -/
def jsTrim (s : String) : String :=
  ⟨((s.data.dropWhile wsChar).reverse.dropWhile wsChar).reverse⟩

/-- Embedding of `String.prototype.toLowerCase` (per-character lowering). -/
def toLowerStr (s : String) : String := ⟨s.data.map Char.toLower⟩

/-- Embedding of `s.startsWith(pre)`. -/
def startsWithStr (s pre : String) : Bool := pre.data.isPrefixOf s.data

/-- `containsStr s pat` holds when `pat` occurs contiguously inside `s`;
the embedding of "the string contains / names ...". -/
def containsStr (s pat : String) : Prop := pat.data <:+: s.data

instance (s pat : String) : Decidable (containsStr s pat) := by
  unfold containsStr; infer_instance

theorem data_append (a b : String) : (a ++ b).data = a.data ++ b.data := rfl

/-- If every occurrence of some character of `pat` is missing from `s`,
then `pat` is not contained in `s`. -/
theorem not_containsStr_of_not_mem (s pat : String) (c : Char)
    (hc : c ∈ pat.data) (hs : c ∉ s.data) : ¬ containsStr s pat := by
  intro h
  exact hs (h.subset hc)

/-! ## POST /api/posts — post creation handler (route.ts)

The handler destructures `content`, `accountIds`, `publishNow`,
`scheduledFor`, `timezone` and `mediaUrls` from the JSON body, validates,
and builds the `postData` record sent to the publishing provider. The
record is embedded as an association list in insertion order. -/

/-- JSON-like values appearing in request/payload records. -/
inductive JVal where
  | str (s : String)
  | arr (xs : List String)
  | bool (b : Bool)
  deriving DecidableEq

/-- The JSON body accepted by the post-creation route. -/
structure CreatePostBody where
  content : Option String
  accountIds : Option (List String)
  publishNow : Option Bool
  scheduledFor : Option String
  timezone : Option String
  mediaUrls : Option (List String)
  deriving DecidableEq

/-- Outcome of the handler up to the outbound provider call: an early 400
response, or the `postData` payload it sends to the provider. -/
inductive PostResult where
  | badRequest (status : Nat) (msg : String)
  | payload (entries : List (String × JVal))
  deriving DecidableEq

/-- Embedding of `!mediaUrls || mediaUrls.length === 0`. -/
def mediaAbsent : Option (List String) → Bool
  | none => true
  | some l => l.isEmpty

/-- The `postData` record built by the handler, in insertion order:
`platforms` always; `post` when `content` is truthy; `mediaUrls` when
non-empty; `scheduleDate` when `publishNow` is falsy and `scheduledFor`
is truthy. -/
def postEntries (ids : List String) (b : CreatePostBody) : List (String × JVal) :=
  ("platforms", JVal.arr ids)
    :: ((if truthyStr b.content then [("post", JVal.str (b.content.getD ""))] else [])
      ++ (if !mediaAbsent b.mediaUrls then [("mediaUrls", JVal.arr (b.mediaUrls.getD []))] else [])
      ++ (if !truthyBool b.publishNow && truthyStr b.scheduledFor then
            [("scheduleDate", JVal.str (b.scheduledFor.getD ""))] else []))

/-- Embedding of the post-creation handler body: the two validation checks
(`accountIds` present and non-empty; `content` truthy or `mediaUrls`
non-empty) followed by payload construction. -/
def createPost (b : CreatePostBody) : PostResult :=
  match b.accountIds with
  | none => PostResult.badRequest 400 "At least one platform is required"
  | some ids =>
    if ids.isEmpty then PostResult.badRequest 400 "At least one platform is required"
    else if !truthyStr b.content && mediaAbsent b.mediaUrls then
      PostResult.badRequest 400 "Content or media is required"
    else PostResult.payload (postEntries ids b)

/-- Claim C1 as stated is refuted at this input: `scheduledFor` is present
(the field carries the empty string) and `publishNow` is absent (falsy),
yet the payload built by the handler has no `scheduleDate` entry, because
the code guards on the truthiness of `scheduledFor`, not its presence. -/
theorem c1_counterexample :
    createPost (CreatePostBody.mk (some "hello") (some ["twitter"]) none (some "") none none)
      = PostResult.payload [("platforms", JVal.arr ["twitter"]), ("post", JVal.str "hello")]
    ∧ List.lookup "scheduleDate" [("platforms", JVal.arr ["twitter"]), ("post", JVal.str "hello")]
      = none := by
  decide

/-- Claim C1 (amended): for every create-post request with non-empty
`accountIds` and with truthy content or non-empty `mediaUrls`, the payload
sets `platforms` to `accountIds`, carries `post = content` exactly when
`content` is truthy, and carries a `scheduleDate` entry if and only if
`publishNow` is falsy and `scheduledFor` is present and non-empty, in which
case it equals `scheduledFor` verbatim. -/
theorem c1_payload_construction (b : CreatePostBody) (ids : List String)
    (hids : b.accountIds = some ids) (hne : ids ≠ [])
    (hcm : (truthyStr b.content || !mediaAbsent b.mediaUrls) = true) :
    createPost b = PostResult.payload (postEntries ids b)
    ∧ List.lookup "platforms" (postEntries ids b) = some (JVal.arr ids)
    ∧ List.lookup "post" (postEntries ids b)
        = (if truthyStr b.content then some (JVal.str (b.content.getD "")) else none)
    ∧ List.lookup "scheduleDate" (postEntries ids b)
        = (if !truthyBool b.publishNow && truthyStr b.scheduledFor then
            some (JVal.str (b.scheduledFor.getD "")) else none) := by
  have hempty : ids.isEmpty = false := by
    cases ids with
    | nil => exact absurd rfl hne
    | cons a t => rfl
  have hguard : (!truthyStr b.content && mediaAbsent b.mediaUrls) = false := by
    cases hc : truthyStr b.content with
    | true => simp
    | false => simp [hc] at hcm ⊢; simpa using hcm
  refine ⟨?_, ?_, ?_, ?_⟩
  · simp [createPost, hids, hempty, hguard]
  · simp [postEntries, List.lookup]
  · cases hc : truthyStr b.content <;>
      cases hm : (!mediaAbsent b.mediaUrls) <;>
      cases hs : (!truthyBool b.publishNow && truthyStr b.scheduledFor) <;>
      simp [postEntries, List.lookup, hc, hm, hs]
  · cases hc : truthyStr b.content <;>
      cases hm : (!mediaAbsent b.mediaUrls) <;>
      cases hs : (!truthyBool b.publishNow && truthyStr b.scheduledFor) <;>
      simp [postEntries, List.lookup, hc, hm, hs]

/-- Witness for C1 at the concrete input of the claim:
`accountIds = ["twitter"]`, `content = "hello"`, `publishNow = true`
produces a payload whose `platforms` is `["twitter"]`, whose `post` is
`"hello"`, and which has no `scheduleDate` entry. -/
theorem c1_payload_construction_witness :
    createPost (CreatePostBody.mk (some "hello") (some ["twitter"]) (some true) none none none)
      = PostResult.payload
          (postEntries ["twitter"]
            (CreatePostBody.mk (some "hello") (some ["twitter"]) (some true) none none none))
    ∧ List.lookup "platforms"
        (postEntries ["twitter"]
          (CreatePostBody.mk (some "hello") (some ["twitter"]) (some true) none none none))
        = some (JVal.arr ["twitter"]) := by
  have h := c1_payload_construction
    (CreatePostBody.mk (some "hello") (some ["twitter"]) (some true) none none none)
    ["twitter"] rfl (by decide) (by decide)
  exact ⟨h.1, h.2.1⟩

/-- Claim C3: the `timezone` field of the create-post body is never
forwarded: every key of the provider payload is one of `platforms`,
`post`, `mediaUrls`, `scheduleDate` (so never `timezone`), and the
handler result does not depend on the `timezone` value at all. -/
theorem c3_timezone_not_forwarded :
    (∀ (b : CreatePostBody) (entries : List (String × JVal)),
      createPost b = PostResult.payload entries →
        "timezone" ∉ entries.map Prod.fst
        ∧ ∀ k ∈ entries.map Prod.fst,
            k ∈ ["platforms", "post", "mediaUrls", "scheduleDate"])
    ∧ (∀ (c : Option String) (a : Option (List String)) (p : Option Bool)
        (s : Option String) (m : Option (List String)) (tz tz' : Option String),
        createPost (CreatePostBody.mk c a p s tz m)
          = createPost (CreatePostBody.mk c a p s tz' m)) := by
  constructor
  · intro b entries h
    have hkeys : ∀ k ∈ entries.map Prod.fst,
        k ∈ ["platforms", "post", "mediaUrls", "scheduleDate"] := by
      cases hacc : b.accountIds with
      | none => simp [createPost, hacc] at h
      | some ids =>
        by_cases hempty : ids.isEmpty = true
        · simp [createPost, hacc, hempty] at h
        · by_cases hguard : (!truthyStr b.content && mediaAbsent b.mediaUrls) = true
          · simp [createPost, hacc, hempty, hguard] at h
          · have hent : entries = postEntries ids b := by
              simp [createPost, hacc, hempty, hguard] at h
              exact h.symm
            subst hent
            intro k hk
            cases hc : truthyStr b.content <;>
              cases hm : (!mediaAbsent b.mediaUrls) <;>
                cases hs : (!truthyBool b.publishNow && truthyStr b.scheduledFor) <;>
                  simp [postEntries, hc, hm, hs] at hk <;>
                    simp only [List.mem_cons, List.mem_singleton] <;> tauto
    refine ⟨?_, hkeys⟩
    intro hmem
    have := hkeys "timezone" hmem
    simp at this
  · intro c a p s m tz tz'
    rfl

/-- Witness for C3: at a concrete request carrying a `timezone` value, the
payload keys avoid `timezone`, and swapping the timezone value leaves the
handler result unchanged. -/
theorem c3_timezone_not_forwarded_witness :
    "timezone" ∉ (postEntries ["twitter"]
        (CreatePostBody.mk (some "hi") (some ["twitter"]) none (some "2025-01-01T10:00:00")
          (some "America/New_York") none)).map Prod.fst
    ∧ createPost (CreatePostBody.mk (some "hi") (some ["twitter"]) none
          (some "2025-01-01T10:00:00") (some "America/New_York") none)
        = createPost (CreatePostBody.mk (some "hi") (some ["twitter"]) none
          (some "2025-01-01T10:00:00") (some "UTC") none) := by
  constructor
  · exact (c3_timezone_not_forwarded.1
      (CreatePostBody.mk (some "hi") (some ["twitter"]) none (some "2025-01-01T10:00:00")
        (some "America/New_York") none)
      (postEntries ["twitter"]
        (CreatePostBody.mk (some "hi") (some ["twitter"]) none (some "2025-01-01T10:00:00")
          (some "America/New_York") none))
      (by decide)).1
  · exact c3_timezone_not_forwarded.2 (some "hi") (some ["twitter"]) none
      (some "2025-01-01T10:00:00") none (some "America/New_York") (some "UTC")

/-! ## Shared data model and account card rendering (page.tsx)

`Account` follows the declared interface; all string fields that may be
absent at runtime are `Option`. The account card of the composer shows
either the provider avatar image or a generated colored-initial badge. -/

structure Account where
  _id : Option String
  id : Option String
  platform : String
  displayName : Option String
  name : Option String
  username : Option String
  profilePicture : Option String
  profilePictureUrl : Option String
  isActive : Option Bool
  deriving DecidableEq

/-- The static platform-to-color lookup table of the page. -/
def platformColors : List (String × String) :=
  [("twitter", "bg-black"),
   ("x", "bg-black"),
   ("instagram", "bg-gradient-to-r from-purple-500 via-pink-500 to-orange-500"),
   ("facebook", "bg-blue-600"),
   ("linkedin", "bg-blue-700"),
   ("tiktok", "bg-black"),
   ("youtube", "bg-red-600"),
   ("pinterest", "bg-red-500"),
   ("reddit", "bg-orange-600"),
   ("bluesky", "bg-blue-400"),
   ("threads", "bg-black")]

/-- Embedding of `getAccountId`: `account._id || account.id || ""`. -/
def getAccountId (a : Account) : String :=
  if truthyStr a._id then a._id.getD ""
  else if truthyStr a.id then a.id.getD ""
  else ""

/-- Embedding of the displayed account name:
`account.displayName || account.name || account.username || "Unknown"`. -/
def accountName (a : Account) : String :=
  if truthyStr a.displayName then a.displayName.getD ""
  else if truthyStr a.name then a.name.getD ""
  else if truthyStr a.username then a.username.getD ""
  else "Unknown"

/-- The avatar area of an account card: either the provider image or the
generated colored-initial badge. -/
inductive Avatar where
  | image (src : String)
  | badge (colorClass : String) (initial : Char)
  deriving DecidableEq

/-- Embedding of the account card avatar render: the page shows the image
exactly when `account.profilePicture` is truthy, and otherwise the badge
colored by `platformColors[account.platform?.toLowerCase()] || "bg-gray-500"`
with the upper-cased first character of the displayed name. -/
def renderAvatar (a : Account) : Avatar :=
  if truthyStr a.profilePicture then Avatar.image (a.profilePicture.getD "")
  else Avatar.badge
    ((List.lookup (toLowerStr a.platform) platformColors).getD "bg-gray-500")
    ((accountName a).data.headD ' ').toUpper

/-- Claim C2 as stated is refuted at this account: `profilePicture` is
absent and the legacy `profilePictureUrl` is set, yet the card renders the
colored-initial badge, not the provider image — the render reads only
`profilePicture` and never consults `profilePictureUrl`. -/
theorem c2_counterexample :
    renderAvatar (Account.mk (some "acc1") none "twitter" (some "Dana") none none
        none (some "https://cdn.example/p.png") none)
      = Avatar.badge "bg-black" 'D'
    ∧ Avatar.badge "bg-black" 'D' ≠ Avatar.image "https://cdn.example/p.png" := by
  decide

/-- Claim C2 (amended): whenever `profilePicture` is not truthy the account
card falls back to the generated colored-initial badge even if the legacy
`profilePictureUrl` field is set, and the rendered avatar does not depend
on `profilePictureUrl` at all. -/
theorem c2_avatar_fallback (a : Account) (hpp : truthyStr a.profilePicture = false) :
    (∃ color initial, renderAvatar a = Avatar.badge color initial)
    ∧ (∀ (v v' : Option String) (i1 i2 : Option String) (p : String)
        (d n u pp : Option String) (act : Option Bool),
        renderAvatar (Account.mk i1 i2 p d n u pp v act)
          = renderAvatar (Account.mk i1 i2 p d n u pp v' act)) := by
  constructor
  · refine ⟨(List.lookup (toLowerStr a.platform) platformColors).getD "bg-gray-500",
      ((accountName a).data.headD ' ').toUpper, ?_⟩
    simp [renderAvatar, hpp]
  · intro v v' i1 i2 p d n u pp act
    rfl

/-- Witness for C2 (amended) at a concrete account with only the legacy
avatar field set. -/
theorem c2_avatar_fallback_witness :
    (∃ color initial,
      renderAvatar (Account.mk (some "acc1") none "twitter" (some "Dana") none none
          none (some "https://cdn.example/p.png") none)
        = Avatar.badge color initial) := by
  exact (c2_avatar_fallback
    (Account.mk (some "acc1") none "twitter" (some "Dana") none none
      none (some "https://cdn.example/p.png") none) (by decide)).1

/-! ## Browser composer state and submit path (page.tsx)

`MediaFile` is the client-local upload state; the `file` handle is
flattened into its `name`, `type` and `size` fields plus the base64
encoding the `FileReader` would produce. `handleSubmit` validates the
composer state in source order and then assembles the request body. -/

structure MediaFile where
  name : String
  mimeType : String
  size : Nat
  dataB64 : String
  preview : String
  publicUrl : Option String
  uploading : Bool
  progress : Nat
  error : Option String
  deriving DecidableEq

inductive PublishMode where
  | now
  | schedule
  deriving DecidableEq

def isScheduleMode : PublishMode → Bool
  | PublishMode.schedule => true
  | PublishMode.now => false

structure ComposerState where
  content : String
  selectedAccounts : List String
  mediaFiles : List MediaFile
  publishMode : PublishMode
  scheduledDate : String
  scheduledTime : String
  deriving DecidableEq

/-- Embedding of `mf.publicUrl && !mf.uploading && !mf.error`: the filter
selecting media eligible for submission. -/
def isUploadedFile (mf : MediaFile) : Bool :=
  truthyStr mf.publicUrl && !mf.uploading && !truthyStr mf.error

def uploadedMedia (s : ComposerState) : List MediaFile :=
  s.mediaFiles.filter isUploadedFile

/-- Embedding of `content.trim().length > 0`. -/
def hasContentB (s : ComposerState) : Bool := !((jsTrim s.content) == "")

/-- Embedding of `uploadedMedia.length > 0`. -/
def hasMediaB (s : ComposerState) : Bool := !(uploadedMedia s).isEmpty

/-- Embedding of `mediaFiles.some(mf => mf.uploading)`. -/
def isUploadingB (s : ComposerState) : Bool :=
  s.mediaFiles.any (fun mf => mf.uploading)

/-- Embedding of `mediaFiles.some(mf => mf.error)`. -/
def hasUploadErrorsB (s : ComposerState) : Bool :=
  s.mediaFiles.any (fun mf => truthyStr mf.error)

def msgWaitUploads : String := "Please wait for media uploads to complete"

def msgNeedContent : String := "Please enter some content or upload media"

def msgFailedUploads : String :=
  "Some media failed to upload. Please remove failed items or add text content."

def msgSelectAccount : String := "Please select at least one account"

def msgPickDateTime : String := "Please select a date and time for scheduling"

/-- Embedding of the validation prefix of `handleSubmit`: the five checks
in source order, the first failing check producing the error banner text,
`none` meaning submission proceeds. -/
def validateSubmit (s : ComposerState) : Option String :=
  if isUploadingB s then some msgWaitUploads
  else if !hasContentB s && !hasMediaB s then some msgNeedContent
  else if hasUploadErrorsB s && !hasContentB s then some msgFailedUploads
  else if s.selectedAccounts.isEmpty then some msgSelectAccount
  else if isScheduleMode s.publishMode
      && (s.scheduledDate == "" || s.scheduledTime == "") then some msgPickDateTime
  else none

/-- The `mediaUrls` array assembled by `handleSubmit`: the public URLs of
the eligible media entries (`uploadedMedia.map(mf => mf.publicUrl)`; the
filter guarantees each `publicUrl` is a present, truthy string). -/
def submittedMediaUrls (s : ComposerState) : List String :=
  (uploadedMedia s).filterMap (fun mf => mf.publicUrl)

/-- Embedding of the `postData` request body assembled by `handleSubmit`
after validation passes, in insertion order; `tz` is the browser-resolved
timezone name. -/
def buildPostBody (tz : String) (s : ComposerState) : List (String × JVal) :=
  ("accountIds", JVal.arr s.selectedAccounts)
    :: ((if hasContentB s then [("content", JVal.str (jsTrim s.content))] else [])
      ++ (if hasMediaB s then [("mediaUrls", JVal.arr (submittedMediaUrls s))] else [])
      ++ (match s.publishMode with
          | PublishMode.now => [("publishNow", JVal.bool true)]
          | PublishMode.schedule =>
            [("scheduledFor", JVal.str (s.scheduledDate ++ "T" ++ s.scheduledTime ++ ":00")),
             ("timezone", JVal.str tz)]))

/-- Claim C4: the submit handler evaluates its five validation checks in
exactly the source order, the first failing check determining the error:
each possible error message is produced precisely when its check fails and
every earlier check passes; in particular a state with a media file still
uploading and zero selected accounts reports the wait-for-uploads message,
not the select-an-account message. -/
theorem c4_validation_order (s : ComposerState) :
    (validateSubmit s = some msgWaitUploads ↔ isUploadingB s = true)
    ∧ (validateSubmit s = some msgNeedContent ↔
        isUploadingB s = false ∧ (!hasContentB s && !hasMediaB s) = true)
    ∧ (validateSubmit s = some msgFailedUploads ↔
        isUploadingB s = false ∧ (!hasContentB s && !hasMediaB s) = false
        ∧ (hasUploadErrorsB s && !hasContentB s) = true)
    ∧ (validateSubmit s = some msgSelectAccount ↔
        isUploadingB s = false ∧ (!hasContentB s && !hasMediaB s) = false
        ∧ (hasUploadErrorsB s && !hasContentB s) = false
        ∧ s.selectedAccounts.isEmpty = true)
    ∧ (validateSubmit s = some msgPickDateTime ↔
        isUploadingB s = false ∧ (!hasContentB s && !hasMediaB s) = false
        ∧ (hasUploadErrorsB s && !hasContentB s) = false
        ∧ s.selectedAccounts.isEmpty = false
        ∧ (isScheduleMode s.publishMode
            && (s.scheduledDate == "" || s.scheduledTime == "")) = true)
    ∧ ((∃ mf ∈ s.mediaFiles, mf.uploading = true) → s.selectedAccounts = [] →
        validateSubmit s = some msgWaitUploads) := by
  have hup : (∃ mf ∈ s.mediaFiles, mf.uploading = true) → isUploadingB s = true := by
    intro h
    simpa [isUploadingB, List.any_eq_true] using h
  have hlast : (∃ mf ∈ s.mediaFiles, mf.uploading = true) → s.selectedAccounts = [] →
      validateSubmit s = some msgWaitUploads := by
    intro h _
    unfold validateSubmit
    simp [hup h]
  refine ⟨?_, ?_, ?_, ?_, ?_, hlast⟩ <;>
    unfold validateSubmit <;>
    split_ifs <;>
    simp_all [msgWaitUploads, msgNeedContent, msgFailedUploads,
      msgSelectAccount, msgPickDateTime]

/-- Witness for C4: a state with one media file still uploading and zero
selected accounts reports the wait-for-uploads message. -/
theorem c4_validation_order_witness :
    validateSubmit
      (ComposerState.mk "" []
        [MediaFile.mk "a.png" "image/png" 100 "QUJD" "blob:1" none true 0 none]
        PublishMode.now "" "")
      = some msgWaitUploads := by
  exact (c4_validation_order
    (ComposerState.mk "" []
      [MediaFile.mk "a.png" "image/png" 100 "QUJD" "blob:1" none true 0 none]
      PublishMode.now "" "")).2.2.2.2.2 (by decide) rfl

/-- Claim C8: a public URL appears in the submitted `mediaUrls` list only
if some media entry carries it with `publicUrl` set, not uploading, and
not in an error state (error truthy); and the `mediaUrls` field appears in
the request body only when at least one entry satisfies all three
conditions. -/
theorem c8_media_urls_invariant (s : ComposerState) (tz : String) (url : String) :
    (url ∈ submittedMediaUrls s →
      ∃ mf ∈ s.mediaFiles, mf.publicUrl = some url
        ∧ mf.uploading = false ∧ truthyStr mf.error = false)
    ∧ ("mediaUrls" ∈ (buildPostBody tz s).map Prod.fst →
      ∃ mf ∈ s.mediaFiles, truthyStr mf.publicUrl = true
        ∧ mf.uploading = false ∧ truthyStr mf.error = false) := by
  constructor
  · intro hmem
    simp only [submittedMediaUrls, uploadedMedia, List.mem_filterMap,
      List.mem_filter] at hmem
    obtain ⟨mf, ⟨hmf, hupl⟩, hurl⟩ := hmem
    simp only [isUploadedFile, Bool.and_eq_true, Bool.not_eq_true'] at hupl
    exact ⟨mf, hmf, hurl, hupl.1.2, hupl.2⟩
  · intro hmem
    have hm : hasMediaB s = true := by
      by_contra hm
      have hm' : hasMediaB s = false := by
        cases h : hasMediaB s
        · rfl
        · exact absurd h hm
      cases hpm : s.publishMode <;>
        cases hc : hasContentB s <;>
          simp [buildPostBody, hc, hm', hpm] at hmem
    have hne : uploadedMedia s ≠ [] := by
      intro hnil
      simp [hasMediaB, hnil] at hm
    obtain ⟨mf, hmf⟩ := List.exists_mem_of_ne_nil _ hne
    have hmf' := hmf
    simp only [uploadedMedia, List.mem_filter] at hmf'
    obtain ⟨hin, hupl⟩ := hmf'
    simp only [isUploadedFile, Bool.and_eq_true, Bool.not_eq_true'] at hupl
    exact ⟨mf, hin, hupl.1.1, hupl.1.2, hupl.2⟩

/-- Witness for C8 at a concrete state with one uploaded file and one
failed file: the uploaded URL is traced back to its eligible entry, and
the presence of the `mediaUrls` key yields an eligible entry. -/
theorem c8_media_urls_invariant_witness :
    (∃ mf ∈ (ComposerState.mk "hi" ["twitter"]
        [MediaFile.mk "a.png" "image/png" 100 "QUJD" "blob:1"
            (some "https://cdn.example/a.png") false 100 none,
         MediaFile.mk "b.png" "image/png" 100 "QUJD" "blob:2" none false 0
            (some "Upload failed")]
        PublishMode.now "" "").mediaFiles,
      mf.publicUrl = some "https://cdn.example/a.png"
        ∧ mf.uploading = false ∧ truthyStr mf.error = false) := by
  exact (c8_media_urls_invariant
    (ComposerState.mk "hi" ["twitter"]
      [MediaFile.mk "a.png" "image/png" 100 "QUJD" "blob:1"
          (some "https://cdn.example/a.png") false 100 none,
       MediaFile.mk "b.png" "image/png" 100 "QUJD" "blob:2" none false 0
          (some "Upload failed")]
      PublishMode.now "" "")
    "UTC" "https://cdn.example/a.png").1 (by decide)

/-! ## POST /api/generate — caption generation handler (route.ts)

The handler builds a system prompt from the platform list, tone and
additional context, then a multi-part user message, and sends both to the
AI gateway. The prompt template is embedded verbatim as the concatenation
of its fixed segments and the three interpolated pieces. -/

/-- Embedding of `platforms.length > 0 ? platforms.join(", ") : "social media"`. -/
def platformPhrase (platforms : List String) : String :=
  if platforms.length > 0 then String.intercalate ", " platforms else "social media"

/-- Embedding of `tone ? "Use a " + tone + " tone." : "Use an engaging, professional tone."`. -/
def toneInstructionOf (tone : Option String) : String :=
  match tone with
  | some t => if t == "" then "Use an engaging, professional tone." else "Use a " ++ t ++ " tone."
  | none => "Use an engaging, professional tone."

/-- Embedding of `additionalContext ? "Additional context: " + additionalContext : ""`. -/
def contextInstructionOf (additionalContext : Option String) : String :=
  match additionalContext with
  | some c => if c == "" then "" else "Additional context: " ++ c
  | none => ""

def promptHead : String :=
  "You are a social media content expert. Generate engaging post captions based on the provided media content.\n\nGuidelines:\n- Create a caption that would perform well on "

def promptAfterPlatform : String := "\n- "

def promptAfterTone : String :=
  "\n- Keep it concise but engaging (under 280 characters for Twitter/X compatibility)\n- Include relevant hashtags at the end (3-5 hashtags)\n- Include a call-to-action when appropriate\n- Make it feel authentic, not overly promotional\n"

def promptTail : String :=
  "\n\nRespond with ONLY the caption text including hashtags. No explanations or alternatives."

/-- The assembled system prompt of the caption generation handler. -/
def systemPromptOf (platforms : List String) (tone additionalContext : Option String) : String :=
  promptHead ++ platformPhrase platforms ++ promptAfterPlatform
    ++ toneInstructionOf tone ++ promptAfterTone
    ++ contextInstructionOf additionalContext ++ promptTail

/-- Claim C5: the system prompt contains the comma-joined platform keys
when the list is non-empty and the phrase "social media" when it is
empty; it contains the tone sentence for a provided (truthy) tone and the
fixed default sentence otherwise; it contains the additional-context line
when context is provided; and the no-platform, no-tone, no-context prompt
has no additional-context line. -/
theorem c5_prompt_assembly (ps : List String) (tone ctx : Option String) :
    (ps ≠ [] → containsStr (systemPromptOf ps tone ctx) (String.intercalate ", " ps))
    ∧ (ps = [] → containsStr (systemPromptOf ps tone ctx) "social media")
    ∧ (∀ t, tone = some t → t ≠ "" →
        containsStr (systemPromptOf ps tone ctx) ("Use a " ++ t ++ " tone."))
    ∧ (truthyStr tone = false →
        containsStr (systemPromptOf ps tone ctx) "Use an engaging, professional tone.")
    ∧ (∀ c, ctx = some c → c ≠ "" →
        containsStr (systemPromptOf ps tone ctx) ("Additional context: " ++ c))
    ∧ ¬ containsStr (systemPromptOf [] none none) "Additional context" := by
  refine ⟨?_, ?_, ?_, ?_, ?_, ?_⟩
  · intro h
    have hplat : platformPhrase ps = String.intercalate ", " ps := by
      have hlen : ps.length > 0 := List.length_pos.mpr h
      simp [platformPhrase, hlen]
    exact ⟨promptHead.data,
      (promptAfterPlatform ++ toneInstructionOf tone ++ promptAfterTone
        ++ contextInstructionOf ctx ++ promptTail).data,
      by simp [systemPromptOf, hplat, data_append, List.append_assoc]⟩
  · intro h
    subst h
    exact ⟨promptHead.data,
      (promptAfterPlatform ++ toneInstructionOf tone ++ promptAfterTone
        ++ contextInstructionOf ctx ++ promptTail).data,
      by simp [systemPromptOf, platformPhrase, data_append, List.append_assoc]⟩
  · intro t ht hne
    subst ht
    have htone : toneInstructionOf (some t) = "Use a " ++ t ++ " tone." := by
      simp [toneInstructionOf, hne]
    exact ⟨(promptHead ++ platformPhrase ps ++ promptAfterPlatform).data,
      (promptAfterTone ++ contextInstructionOf ctx ++ promptTail).data,
      by simp [systemPromptOf, htone, data_append, List.append_assoc]⟩
  · intro h
    have htone : toneInstructionOf tone = "Use an engaging, professional tone." := by
      cases tone with
      | none => rfl
      | some t =>
        simp [truthyStr] at h
        simp [toneInstructionOf, h]
    exact ⟨(promptHead ++ platformPhrase ps ++ promptAfterPlatform).data,
      (promptAfterTone ++ contextInstructionOf ctx ++ promptTail).data,
      by simp [systemPromptOf, htone, data_append, List.append_assoc]⟩
  · intro c hc hne
    subst hc
    have hctx : contextInstructionOf (some c) = "Additional context: " ++ c := by
      simp [contextInstructionOf, hne]
    exact ⟨(promptHead ++ platformPhrase ps ++ promptAfterPlatform
        ++ toneInstructionOf tone ++ promptAfterTone).data,
      promptTail.data,
      by simp [systemPromptOf, hctx, data_append, List.append_assoc]⟩
  · exact not_containsStr_of_not_mem _ _ 'A' (by decide) (by decide)

/-- Witness for C5 at the concrete inputs of the claim. -/
theorem c5_prompt_assembly_witness :
    containsStr (systemPromptOf ["instagram", "twitter"] (some "playful") (some "launch day"))
      "instagram, twitter"
    ∧ containsStr (systemPromptOf ["instagram", "twitter"] (some "playful") (some "launch day"))
      "Use a playful tone."
    ∧ containsStr (systemPromptOf ["instagram", "twitter"] (some "playful") (some "launch day"))
      "Additional context: launch day" := by
  have h := c5_prompt_assembly ["instagram", "twitter"] (some "playful") (some "launch day")
  have h1 := h.1 (by decide)
  have h3 := h.2.2.1 "playful" rfl (by decide)
  have h5 := h.2.2.2.2.1 "launch day" rfl (by decide)
  have e1 : String.intercalate ", " ["instagram", "twitter"] = "instagram, twitter" := by decide
  have e3 : "Use a " ++ "playful" ++ " tone." = "Use a playful tone." := by decide
  have e5 : "Additional context: " ++ "launch day" = "Additional context: launch day" := by decide
  exact ⟨e1 ▸ h1, e3 ▸ h3, e5 ▸ h5⟩

/-- The JSON body accepted by the caption generation route. -/
structure GenBody where
  mediaBase64 : Option String
  mediaMimeType : Option String
  mediaUrl : Option String
  platforms : Option (List String)
  tone : Option String
  additionalContext : Option String
  deriving DecidableEq

/-- Embedding of the client-side size ceiling in `generateContent`
(page.tsx): videos (MIME type starting with `"video/"`) are capped at
200 MB, other files at 20 MB; exceeding the cap produces the thrown error
message, `none` means the check passes. -/
def sizeLimitCheck (mimeType : String) (size : Nat) : Option String :=
  let isVideo := startsWithStr mimeType "video/"
  let maxSizeMB : Nat := if isVideo then 200 else 20
  if size > maxSizeMB * 1024 * 1024 then
    some ((if isVideo then "Video" else "Image")
      ++ " is too large (max " ++ toString maxSizeMB ++ "MB). Please use a smaller file.")
  else none

/-- Embedding of the composer `generateContent` trigger up to the network
call: it uses the first attached media file, applies the size ceiling, and
on success produces the request body `{ mediaBase64, mediaMimeType,
platforms }` it would POST to /api/generate; `Except.error` is the caught
error shown in the banner, produced before any network call. -/
def generateCaptionRequest (mediaFiles : List MediaFile)
    (selectedPlatforms : List String) : Except String GenBody :=
  match mediaFiles with
  | [] => Except.error "Please add media first to generate content"
  | mf :: _ =>
    match sizeLimitCheck mf.mimeType mf.size with
    | some e => Except.error e
    | none =>
      Except.ok (GenBody.mk (some mf.dataB64) (some mf.mimeType) none
        (some selectedPlatforms) none none)

/-- Claim C6: for the first attached media file, an oversized video
(> 200 MB, video-ness by MIME prefix `"video/"`) is rejected before any
network call with an error naming "Video" and the 200 MB limit; an
oversized non-video (> 20 MB) is rejected naming "Image" and the 20 MB
limit; a 150 MB video and a 15 MB image both pass the size check. -/
theorem c6_size_ceiling (mf : MediaFile) (rest : List MediaFile) (ps : List String) :
    (startsWithStr mf.mimeType "video/" = true → mf.size > 200 * 1024 * 1024 →
      ∃ e, generateCaptionRequest (mf :: rest) ps = Except.error e
        ∧ containsStr e "Video" ∧ containsStr e "200MB")
    ∧ (startsWithStr mf.mimeType "video/" = false → mf.size > 20 * 1024 * 1024 →
      ∃ e, generateCaptionRequest (mf :: rest) ps = Except.error e
        ∧ containsStr e "Image" ∧ containsStr e "20MB")
    ∧ sizeLimitCheck "video/mp4" (150 * 1024 * 1024) = none
    ∧ sizeLimitCheck "image/png" (15 * 1024 * 1024) = none := by
  refine ⟨?_, ?_, by decide, by decide⟩
  · intro hv hsz
    refine ⟨"Video is too large (max 200MB). Please use a smaller file.", ?_, ?_, ?_⟩
    · simp [generateCaptionRequest, sizeLimitCheck, hv, hsz]
      decide
    · exact ⟨"".data, " is too large (max 200MB). Please use a smaller file.".data, by decide⟩
    · exact ⟨"Video is too large (max ".data, "). Please use a smaller file.".data, by decide⟩
  · intro hv hsz
    refine ⟨"Image is too large (max 20MB). Please use a smaller file.", ?_, ?_, ?_⟩
    · simp [generateCaptionRequest, sizeLimitCheck, hv, hsz]
      decide
    · exact ⟨"".data, " is too large (max 20MB). Please use a smaller file.".data, by decide⟩
    · exact ⟨"Image is too large (max ".data, "). Please use a smaller file.".data, by decide⟩

/-- Witness for C6: a 210 MB video is rejected with an error naming
"Video" and 200MB, and a 25 MB image with an error naming "Image" and
20MB. -/
theorem c6_size_ceiling_witness :
    (∃ e, generateCaptionRequest
        [MediaFile.mk "v.mp4" "video/mp4" (210 * 1024 * 1024) "QUJD" "blob:1"
          none false 0 none] []
        = Except.error e ∧ containsStr e "Video" ∧ containsStr e "200MB")
    ∧ (∃ e, generateCaptionRequest
        [MediaFile.mk "i.png" "image/png" (25 * 1024 * 1024) "QUJD" "blob:2"
          none false 0 none] []
        = Except.error e ∧ containsStr e "Image" ∧ containsStr e "20MB") := by
  constructor
  · exact (c6_size_ceiling
      (MediaFile.mk "v.mp4" "video/mp4" (210 * 1024 * 1024) "QUJD" "blob:1" none false 0 none)
      [] []).1 (by decide) (by decide)
  · exact (c6_size_ceiling
      (MediaFile.mk "i.png" "image/png" (25 * 1024 * 1024) "QUJD" "blob:2" none false 0 none)
      [] []).2.1 (by decide) (by decide)

/-- A user-message part of the gateway chat request. -/
inductive ContentPart where
  | imageUrl (url : String)
  | text (t : String)
  deriving DecidableEq

def videoPromptText : String :=
  "Watch this video carefully, understand its content, any spoken words or text shown, and generate an engaging social media caption for it. The caption should relate directly to what happens in the video."

def imagePromptText : String :=
  "Analyze this media and generate an engaging social media caption for it."

/-- Embedding of the user-message content array construction: an image_url
part is pushed only when `mediaBase64` and `mediaMimeType` are both truthy
(data URI) or, failing that, when `mediaUrl` is truthy; then one text part
whose wording depends on whether `mediaMimeType` starts with `"video/"`. -/
def userContentParts (b : GenBody) : List ContentPart :=
  let isVideo := match b.mediaMimeType with
    | some m => startsWithStr m "video/"
    | none => false
  (if truthyStr b.mediaBase64 && truthyStr b.mediaMimeType then
      [ContentPart.imageUrl
        ("data:" ++ b.mediaMimeType.getD "" ++ ";base64," ++ b.mediaBase64.getD "")]
    else if truthyStr b.mediaUrl then
      [ContentPart.imageUrl (b.mediaUrl.getD "")]
    else [])
  ++ [if isVideo then ContentPart.text videoPromptText else ContentPart.text imagePromptText]

/-- The chat-completion request the handler sends to the AI gateway. -/
structure GatewayRequest where
  model : String
  systemMessage : String
  userContent : List ContentPart
  maxTokens : Nat
  deriving DecidableEq

/-- An early JSON error response of the generation route. -/
structure ErrResponse where
  status : Nat
  error : String
  deriving DecidableEq

/-- The try-block of the generation handler: the media-source validation,
then prompt and message construction. The outer `Except.error ()` marks a
thrown JavaScript error: destructured `platforms` is `undefined` when the
field is missing, so `platforms.length` throws before anything else runs. -/
def generateTryBlock (b : GenBody) : Except Unit (Except ErrResponse GatewayRequest) :=
  if !truthyStr b.mediaBase64 && !truthyStr b.mediaUrl then
    Except.ok (Except.error (ErrResponse.mk 400 "Either mediaBase64 or mediaUrl is required"))
  else
    match b.platforms with
    | none => Except.error ()
    | some ps =>
      Except.ok (Except.ok (GatewayRequest.mk "google/gemini-2.0-flash-001"
        (systemPromptOf ps b.tone b.additionalContext) (userContentParts b) 500))

/-- Embedding of the generation handler up to the outbound gateway call:
the API-key guard, then the try-block with its catch-all translating any
thrown error into the generic 500 response. -/
def generateHandler (apiKeyConfigured : Bool) (b : GenBody) :
    Except ErrResponse GatewayRequest :=
  if !apiKeyConfigured then
    Except.error (ErrResponse.mk 500 "OpenRouter API key not configured")
  else
    match generateTryBlock b with
    | Except.error _ => Except.error (ErrResponse.mk 500 "Failed to generate content")
    | Except.ok r => r

/-- Claim C9: with the API key configured, a request that omits
`platforms` but supplies a truthy media source is answered with the
generic 500 `Failed to generate content` response (not a 400), because
`platforms.length` throws before any prompt is built or any gateway call
is made. -/
theorem c9_missing_platforms_500 (b : GenBody) (hp : b.platforms = none)
    (hm : (truthyStr b.mediaBase64 || truthyStr b.mediaUrl) = true) :
    generateHandler true b = Except.error (ErrResponse.mk 500 "Failed to generate content") := by
  have hguard : (!truthyStr b.mediaBase64 && !truthyStr b.mediaUrl) = false := by
    cases hb : truthyStr b.mediaBase64 with
    | true => simp [hb]
    | false => simp [hb] at hm ⊢; simp [hm]
  simp [generateHandler, generateTryBlock, hguard, hp]

/-- Witness for C9 at a concrete body supplying only `mediaBase64`. -/
theorem c9_missing_platforms_500_witness :
    generateHandler true (GenBody.mk (some "QUJD") (some "image/png") none none none none)
      = Except.error (ErrResponse.mk 500 "Failed to generate content") := by
  exact c9_missing_platforms_500
    (GenBody.mk (some "QUJD") (some "image/png") none none none none) rfl (by decide)

/-- Claim C10: a request supplying truthy `mediaBase64` but no
`mediaMimeType` and no `mediaUrl` passes the media-source validation (no
400 is possible), yet the user message sent to the gateway consists of the
generic image-analysis text part alone — no image_url part at all. -/
theorem c10_base64_without_mime (b : GenBody) (s : String)
    (hb : b.mediaBase64 = some s) (hs : s ≠ "")
    (hmt : b.mediaMimeType = none) (hmu : b.mediaUrl = none) :
    (∀ e, generateHandler true b = Except.error e → e.status ≠ 400)
    ∧ (∀ ps, b.platforms = some ps →
        generateHandler true b
          = Except.ok (GatewayRequest.mk "google/gemini-2.0-flash-001"
              (systemPromptOf ps b.tone b.additionalContext)
              [ContentPart.text imagePromptText] 500)
        ∧ ∀ u, ContentPart.imageUrl u ∉ [ContentPart.text imagePromptText]) := by
  have htr : truthyStr b.mediaBase64 = true := by
    simp [hb, truthyStr, hs]
  have hguard : (!truthyStr b.mediaBase64 && !truthyStr b.mediaUrl) = false := by
    simp [htr]
  constructor
  · intro e he
    cases hp : b.platforms with
    | none =>
      simp [generateHandler, generateTryBlock, hguard, hp] at he
      simp [← he]
    | some ps =>
      simp [generateHandler, generateTryBlock, hguard, hp] at he
  · intro ps hp
    constructor
    · have hparts : userContentParts b = [ContentPart.text imagePromptText] := by
        simp [userContentParts, hmt, hmu, truthyStr]
      simp [generateHandler, generateTryBlock, hguard, hp, hparts]
    · intro u
      simp

/-- Witness for C10 at a concrete body with base64 media, no MIME type,
no URL, and platforms present. -/
theorem c10_base64_without_mime_witness :
    generateHandler true (GenBody.mk (some "QUJD") none none (some ["twitter"]) none none)
      = Except.ok (GatewayRequest.mk "google/gemini-2.0-flash-001"
          (systemPromptOf ["twitter"] none none)
          [ContentPart.text imagePromptText] 500) := by
  exact ((c10_base64_without_mime
    (GenBody.mk (some "QUJD") none none (some ["twitter"]) none none)
    "QUJD" rfl (by decide) rfl rfl).2 ["twitter"] rfl).1

/-! ## POST /api/media/presigned-url — upload URL handler (route.ts)

The handler sanitizes the filename with the regex replacement
`filename.replace(/[^a-zA-Z0-9.-]/g, "_")` — a per-character substitution —
builds the object path `uploads/<timestamp>-<sanitized>` and the public
URL `<base>/storage/v1/object/public/media/<path>`. -/

/-- Membership in the regex character class `[a-zA-Z0-9.-]`. -/
def charAllowed (c : Char) : Bool :=
  ('a' ≤ c && c ≤ 'z') || ('A' ≤ c && c ≤ 'Z') || ('0' ≤ c && c ≤ '9')
    || c == '.' || c == '-'

/-- Embedding of the global regex replacement: every character outside the
class becomes an underscore, characters in the class are kept. -/
def sanitizeFilename (s : String) : String :=
  ⟨s.data.map (fun c => if charAllowed c then c else '_')⟩

/-- The storage object path built by the handler. -/
def objectPath (timestamp : Nat) (filename : String) : String :=
  "uploads/" ++ toString timestamp ++ "-" ++ sanitizeFilename filename

/-- The public retrieval URL returned by the handler. -/
def publicUrlOf (baseUrl : String) (timestamp : Nat) (filename : String) : String :=
  baseUrl ++ "/storage/v1/object/public/media/" ++ objectPath timestamp filename

/-- Claim C7: the object path is `uploads/` + millisecond timestamp + `-` +
the sanitized filename, where sanitization preserves length, keeps every
character of the class `[A-Za-z0-9.-]` and replaces every other character
by an underscore; and the public URL is the base URL followed by the fixed
prefix `/storage/v1/object/public/media/` and that object path. -/
theorem c7_object_path (base : String) (ts : Nat) (name : String) :
    objectPath ts name = "uploads/" ++ toString ts ++ "-" ++ sanitizeFilename name
    ∧ (sanitizeFilename name).data.length = name.data.length
    ∧ (∀ (i : Nat) (h1 : i < name.data.length)
        (h2 : i < (sanitizeFilename name).data.length),
        (charAllowed (name.data.get ⟨i, h1⟩) = true →
          (sanitizeFilename name).data.get ⟨i, h2⟩ = name.data.get ⟨i, h1⟩)
        ∧ (charAllowed (name.data.get ⟨i, h1⟩) = false →
          (sanitizeFilename name).data.get ⟨i, h2⟩ = '_'))
    ∧ publicUrlOf base ts name
        = base ++ "/storage/v1/object/public/media/"
          ++ ("uploads/" ++ toString ts ++ "-" ++ sanitizeFilename name) := by
  refine ⟨rfl, by simp [sanitizeFilename], ?_, rfl⟩
  intro i h1 h2
  constructor
  · intro hc
    simp only [List.get_eq_getElem] at hc
    simp [sanitizeFilename, List.get_eq_getElem, List.getElem_map, hc]
  · intro hc
    simp only [List.get_eq_getElem] at hc
    simp [sanitizeFilename, List.get_eq_getElem, List.getElem_map, hc]

/-- Witness for C7 at the concrete filename of the specification example:
the first character (allowed) is preserved and the third character, a
space (not allowed), becomes an underscore; the full sanitized name is the
expected one. -/
theorem c7_object_path_witness :
    (sanitizeFilename "my file (final)!!.png").data.get ⟨0, by decide⟩ = 'm'
    ∧ (sanitizeFilename "my file (final)!!.png").data.get ⟨2, by decide⟩ = '_'
    ∧ objectPath 1700000000000 "my file (final)!!.png"
        = "uploads/" ++ toString 1700000000000 ++ "-"
          ++ sanitizeFilename "my file (final)!!.png" := by
  refine ⟨?_, ?_, ?_⟩
  · have h := ((c7_object_path "https://example.supabase.co" 1700000000000
      "my file (final)!!.png").2.2.1 0 (by decide) (by decide)).1 (by decide)
    simpa using h
  · have h := ((c7_object_path "https://example.supabase.co" 1700000000000
      "my file (final)!!.png").2.2.1 2 (by decide) (by decide)).2 (by decide)
    simpa using h
  · exact (c7_object_path "https://example.supabase.co" 1700000000000
      "my file (final)!!.png").1

end SocialPoster
